import Mathlib

/-
Verification of zhaquirks/xiaomi/aqara/plug_eu.py (Xiaomi Aqara EU plugs).

The file under verification defines Zigbee device quirks: a metering guard
(PlugAEU001MeteringCluster), an asynchronous bind helper (OppleCluster.bind
and remove_from_ep), static signature and replacement tables for eight plug
quirk classes, and a declarative QuirkBuilder chain for lumi.plug.aeu001.
Each Python definition is embedded shallowly below; framework behavior that
lives outside the file (zigpy / zhaquirks.xiaomi) is modelled explicitly
where a claim depends on it.
-/

namespace PlugEU

/-! ## Attribute cache and the metering guard

`PlugAEU001MeteringCluster._update_attribute(self, attrid, value)` consults
`self._attr_cache.get(attrid, 0)` and either returns without calling the
superclass (dropping the update) or calls `super()._update_attribute(attrid,
value)`. The cache maps attribute ids (Python ints) to values (Python ints
here, since the metering summation is an integer counter). -/

/-- Attribute cache of a Zigbee cluster: attribute id to cached value.
Absent keys are `none`, mirroring a Python dict that lacks the key. -/
def AttrCache : Type := Nat → Option Int

/-- Modelled from the spec: `CURRENT_SUMM_DELIVERED_ID` is the attribute id
constant of the `MeteringCluster` base class in `zhaquirks.xiaomi`, which is
not part of this fragment; it is the Zigbee Metering CurrentSummationDelivered
attribute, id 0x0000. The claims only require it to be a fixed id. -/
def CURRENT_SUMM_DELIVERED_ID : Nat := 0x0000

/-- Modelled from the spec: the superclass `_update_attribute` (framework
behavior from zigpy's `Cluster`, reached through `MeteringCluster`) stores the
delivered value in the attribute cache under its attribute id. -/
def superUpdateAttribute (cache : AttrCache) (attrid : Nat) (value : Int) :
    AttrCache :=
  fun a => if a = attrid then some value else cache a

/-- Python `cache.get(attrid, 0)`: the cached value, defaulting to 0. -/
def cacheGet0 (cache : AttrCache) (attrid : Nat) : Int :=
  (cache attrid).getD 0

/-- Embedding of `PlugAEU001MeteringCluster._update_attribute`. The result is
the attribute cache after the call, paired with the `(attrid, value)` pair
forwarded to `super()._update_attribute`, or `none` when the method returned
early without forwarding. Mirrors the source: the early return fires only when
`attrid == CURRENT_SUMM_DELIVERED_ID` and `value < cache.get(attrid, 0)`. -/
def update_attribute (cache : AttrCache) (attrid : Nat) (value : Int) :
    AttrCache × Option (Nat × Int) :=
  if attrid = CURRENT_SUMM_DELIVERED_ID then
    if value < cacheGet0 cache attrid then
      (cache, none)
    else
      (superUpdateAttribute cache attrid value, some (attrid, value))
  else
    (superUpdateAttribute cache attrid value, some (attrid, value))

/-- Replay a sequence of `_update_attribute` calls against a cache. -/
def applyUpdates (cache : AttrCache) (updates : List (Nat × Int)) : AttrCache :=
  updates.foldl (fun c u => (update_attribute c u.1 u.2).1) cache

end PlugEU

namespace PlugEU

/-- C1: an update for `CURRENT_SUMM_DELIVERED_ID` whose value is strictly less
than the cached value (default 0) is ignored: nothing is forwarded to the
superclass and the cache is unchanged; otherwise the update is forwarded. -/
theorem metering_summ_guard (cache : AttrCache) (value : Int) :
    (value < cacheGet0 cache CURRENT_SUMM_DELIVERED_ID →
      update_attribute cache CURRENT_SUMM_DELIVERED_ID value = (cache, none)) ∧
    (cacheGet0 cache CURRENT_SUMM_DELIVERED_ID ≤ value →
      update_attribute cache CURRENT_SUMM_DELIVERED_ID value =
        (superUpdateAttribute cache CURRENT_SUMM_DELIVERED_ID value,
          some (CURRENT_SUMM_DELIVERED_ID, value))) := by
  constructor
  · intro h
    simp [update_attribute, h]
  · intro h
    simp [update_attribute, not_lt.mpr h]

/-- C1 witness: with an empty cache, a negative first reading is dropped with
the cache untouched, while a reading of 7 against a cache holding 5 is
forwarded unchanged. -/
theorem metering_summ_guard_witness :
    (update_attribute (fun _ => none) CURRENT_SUMM_DELIVERED_ID (-1) =
      ((fun _ => none), none)) ∧
    (update_attribute (fun _ => some 5) CURRENT_SUMM_DELIVERED_ID 7 =
      (superUpdateAttribute (fun _ => some 5) CURRENT_SUMM_DELIVERED_ID 7,
        some (CURRENT_SUMM_DELIVERED_ID, 7))) :=
  ⟨(metering_summ_guard (fun _ => none) (-1)).1 (by simp [cacheGet0]),
    (metering_summ_guard (fun _ => some 5) 7).2 (by simp [cacheGet0])⟩

/-- Helper: one `_update_attribute` call never decreases the cached
summation value (with absent entries read as the default 0). -/
theorem summ_cache_step_mono (cache : AttrCache) (attrid : Nat) (value : Int) :
    cacheGet0 cache CURRENT_SUMM_DELIVERED_ID ≤
      cacheGet0 (update_attribute cache attrid value).1
        CURRENT_SUMM_DELIVERED_ID := by
  unfold update_attribute
  by_cases h : attrid = CURRENT_SUMM_DELIVERED_ID
  · subst h
    by_cases hlt : value < cacheGet0 cache CURRENT_SUMM_DELIVERED_ID
    · simp [hlt]
    · simp only [if_pos rfl, if_neg hlt]
      simpa [cacheGet0, superUpdateAttribute] using not_lt.mp hlt
  · simp only [if_neg h]
    simp [cacheGet0, superUpdateAttribute, Ne.symm h]

/-- C2: across any sequence of `_update_attribute` calls, the cached value for
`CURRENT_SUMM_DELIVERED_ID` is monotonically non-decreasing; in particular a
single call never decreases it. -/
theorem summ_cache_monotone (cache : AttrCache) (updates : List (Nat × Int)) :
    (∀ attrid value,
      cacheGet0 cache CURRENT_SUMM_DELIVERED_ID ≤
        cacheGet0 (update_attribute cache attrid value).1
          CURRENT_SUMM_DELIVERED_ID) ∧
    cacheGet0 cache CURRENT_SUMM_DELIVERED_ID ≤
      cacheGet0 (applyUpdates cache updates) CURRENT_SUMM_DELIVERED_ID := by
  refine ⟨fun attrid value => summ_cache_step_mono cache attrid value, ?_⟩
  induction updates generalizing cache with
  | nil => simp [applyUpdates]
  | cons u us ih =>
      calc cacheGet0 cache CURRENT_SUMM_DELIVERED_ID
          ≤ cacheGet0 (update_attribute cache u.1 u.2).1
              CURRENT_SUMM_DELIVERED_ID := summ_cache_step_mono cache u.1 u.2
        _ ≤ cacheGet0 (applyUpdates (update_attribute cache u.1 u.2).1 us)
              CURRENT_SUMM_DELIVERED_ID := ih _
        _ = cacheGet0 (applyUpdates cache (u :: us))
              CURRENT_SUMM_DELIVERED_ID := by simp [applyUpdates]

/-- C8: an update for any attribute id other than `CURRENT_SUMM_DELIVERED_ID`
is forwarded unconditionally to the superclass with attrid and value
unchanged, whatever the cache holds. -/
theorem other_attrid_forwarded (cache : AttrCache) (attrid : Nat) (value : Int)
    (h : attrid ≠ CURRENT_SUMM_DELIVERED_ID) :
    update_attribute cache attrid value =
      (superUpdateAttribute cache attrid value, some (attrid, value)) := by
  simp [update_attribute, h]

/-- C8 witness: an update for attribute id 0x0400 with value -100 is forwarded
even though -100 is below the cached summation value. -/
theorem other_attrid_forwarded_witness :
    update_attribute (fun _ => some 5) 0x0400 (-100) =
      (superUpdateAttribute (fun _ => some 5) 0x0400 (-100),
        some (0x0400, -100)) :=
  other_attrid_forwarded (fun _ => some 5) 0x0400 (-100) (by decide)

/-- C9: a summation update equal to the cached value is forwarded (only
strictly smaller values are dropped), and with no cached entry the comparison
uses the default 0, so any value at least 0 is accepted as a first update. -/
theorem summ_equal_and_first_forwarded (cache : AttrCache) (value : Int) :
    (value = cacheGet0 cache CURRENT_SUMM_DELIVERED_ID →
      (update_attribute cache CURRENT_SUMM_DELIVERED_ID value).2 =
        some (CURRENT_SUMM_DELIVERED_ID, value)) ∧
    (cache CURRENT_SUMM_DELIVERED_ID = none → 0 ≤ value →
      (update_attribute cache CURRENT_SUMM_DELIVERED_ID value).2 =
        some (CURRENT_SUMM_DELIVERED_ID, value)) := by
  constructor
  · intro h
    simp [update_attribute, h]
  · intro hnone hv
    have hget : cacheGet0 cache CURRENT_SUMM_DELIVERED_ID = 0 := by
      simp [cacheGet0, hnone]
    simp [update_attribute, hget, not_lt.mpr hv]

/-- C9 witness: against the empty cache, a first update of value 0 (equal to
the default cached value 0) is forwarded. -/
theorem summ_equal_and_first_forwarded_witness :
    (update_attribute (fun _ => none) CURRENT_SUMM_DELIVERED_ID 0).2 =
      some (CURRENT_SUMM_DELIVERED_ID, 0) :=
  (summ_equal_and_first_forwarded (fun _ => none) 0).2 rfl (by decide)

/-! ## OppleCluster.bind and remove_from_ep

`remove_from_ep(dev)` looks up `dev.endpoints.get(1)` and, when the endpoint
exists, logs, awaits `endpoint.remove_from_group(0)` and logs again;
otherwise it returns without doing anything. `OppleCluster.bind(self)` awaits
`super().bind()`, schedules `self.write_attributes(self.attr_config,
manufacturer=OPPLE_MFG_CODE)` as a catching task, awaits
`remove_from_ep(self.endpoint.device)` and returns the result of the
framework bind. Both are embedded as trace-producing functions: the list of
awaited or scheduled effects, in program order. -/

/-- The manufacturer code used for the attribute write, `0x115F`. -/
def OPPLE_MFG_CODE : Nat := 0x115F

/-- `OppleCluster.attr_config`: the attribute configuration written on bind. -/
def attr_config : List (Nat × Int) := [(0x0009, 0x01)]

/-- A device as `remove_from_ep` sees it: the set of endpoint ids present in
its `endpoints` mapping. -/
structure Device where
  endpoints : List Nat
deriving DecidableEq

/-- Observable effects of `OppleCluster.bind` and `remove_from_ep`, in
program order. `superBind` is the awaited framework bind,
`scheduleWriteAttributes` the catching task created for
`write_attributes(attrs, manufacturer=mfg)`, `debugLog` a debug log line and
`removeFromGroup ep g` the awaited `endpoint.remove_from_group(g)` on
endpoint `ep`. -/
inductive BindEvent
  | superBind
  | scheduleWriteAttributes (attrs : List (Nat × Int)) (mfg : Nat)
  | debugLog (msg : String)
  | removeFromGroup (endpointId : Nat) (groupId : Nat)
deriving DecidableEq

/-- Embedding of `remove_from_ep`: the effects it awaits. When endpoint 1 is
absent from the device the `if` guard is skipped and no effect occurs. -/
def remove_from_ep (dev : Device) : List BindEvent :=
  if dev.endpoints.contains 1 then
    [BindEvent.debugLog "Removing endpoint 1 from group 0",
      BindEvent.removeFromGroup 1 0,
      BindEvent.debugLog "Removed endpoint 1 from group 0"]
  else
    []

/-- Embedding of `OppleCluster.bind`: the trace of effects in program order,
paired with the returned value. `superResult` is the value produced by the
awaited `super().bind()`, which the method returns unchanged. -/
def bind (dev : Device) (superResult : α) : List BindEvent × α :=
  ([BindEvent.superBind,
      BindEvent.scheduleWriteAttributes attr_config OPPLE_MFG_CODE]
    ++ remove_from_ep dev, superResult)

end PlugEU

namespace PlugEU

/-- C3: on every device, `bind` schedules the manufacturer-specific attribute
write after the framework bind, and when the device has an endpoint 1 it then
awaits removing endpoint 1 from group 0 before returning; the returned value
is the framework bind result. -/
theorem bind_writes_then_leaves_group (dev : Device) (superResult : α)
    (h : dev.endpoints.contains 1 = true) :
    (bind dev superResult).1 =
      [BindEvent.superBind,
        BindEvent.scheduleWriteAttributes attr_config OPPLE_MFG_CODE,
        BindEvent.debugLog "Removing endpoint 1 from group 0",
        BindEvent.removeFromGroup 1 0,
        BindEvent.debugLog "Removed endpoint 1 from group 0"] ∧
    (bind dev superResult).2 = superResult := by
  constructor
  · simp only [bind, remove_from_ep, h, if_pos]
    rfl
  · rfl

/-- C3 witness: on a device with endpoints 1 and 242, `bind` produces exactly
the trace of the scheduled write followed by the awaited group removal, and
returns the framework result 37. -/
theorem bind_writes_then_leaves_group_witness :
    (bind ⟨[1, 242]⟩ (37 : Nat)).1 =
      [BindEvent.superBind,
        BindEvent.scheduleWriteAttributes attr_config OPPLE_MFG_CODE,
        BindEvent.debugLog "Removing endpoint 1 from group 0",
        BindEvent.removeFromGroup 1 0,
        BindEvent.debugLog "Removed endpoint 1 from group 0"] ∧
    (bind ⟨[1, 242]⟩ (37 : Nat)).2 = 37 :=
  bind_writes_then_leaves_group ⟨[1, 242]⟩ 37 (by decide)

/-- C10: on a device with no endpoint 1, `remove_from_ep` performs no effect
at all, in particular no `remove_from_group` call, and returns normally. -/
theorem remove_from_ep_no_endpoint1 (dev : Device)
    (h : dev.endpoints.contains 1 = false) :
    remove_from_ep dev = [] := by
  simp only [remove_from_ep, h, Bool.false_eq_true, if_false]

/-- C10 witness: a device whose endpoints mapping holds only endpoints 2 and
242 yields the empty effect trace. -/
theorem remove_from_ep_no_endpoint1_witness :
    remove_from_ep ⟨[2, 242]⟩ = [] :=
  remove_from_ep_no_endpoint1 ⟨[2, 242]⟩ (by decide)

/-! ## Framework constants

Cluster ids, profile ids and device types imported by the source from the
zigpy framework. Their numeric values are standard ZCL constants and are
confirmed by the SimpleDescriptor comments inside the source file, e.g.
`input_clusters=[0, 2, 3, 4, 5, 6, 9, 1794, 2820]`, `output_clusters=[10, 25]`,
`input_clusters=[0, 2, 3, 4, 5, 6, 64704]`, `profile=260 device_type=81`,
`profile=41440 device_type=97`, `input_clusters=[12]`, `output_clusters=[33]`. -/

def Basic.cluster_id : Nat := 0x0000

def DeviceTemperature.cluster_id : Nat := 0x0002

def Identify.cluster_id : Nat := 0x0003

def Groups.cluster_id : Nat := 0x0004

def Scenes.cluster_id : Nat := 0x0005

def OnOff.cluster_id : Nat := 0x0006

def Alarms.cluster_id : Nat := 0x0009

def Time.cluster_id : Nat := 0x000A

def AnalogInput.cluster_id : Nat := 0x000C

def Ota.cluster_id : Nat := 0x0019

def GreenPowerProxy.cluster_id : Nat := 0x0021

def TemperatureMeasurement.cluster_id : Nat := 0x0402

def Metering.cluster_id : Nat := 0x0702

def ElectricalMeasurement.cluster_id : Nat := 0x0B04

/-- Modelled from the spec: the manufacturer-specific cluster id of
`XiaomiAqaraE1Cluster` from `zhaquirks.xiaomi` (not part of this fragment),
confirmed as 64704 = 0xFCC0 by the SimpleDescriptor comments in the source. -/
def XiaomiAqaraE1Cluster.cluster_id : Nat := 0xFCC0

/-- `OppleCluster` subclasses `XiaomiAqaraE1Cluster` and inherits its id. -/
def OppleCluster.cluster_id : Nat := XiaomiAqaraE1Cluster.cluster_id

/-- `PlugAEU001Cluster` subclasses `XiaomiAqaraE1Cluster` and inherits its
id. -/
def PlugAEU001Cluster.cluster_id : Nat := XiaomiAqaraE1Cluster.cluster_id

def zha.PROFILE_ID : Nat := 260

def zha.DeviceType.SMART_PLUG : Nat := 81

def zgp.PROFILE_ID : Nat := 41440

def zgp.DeviceType.PROXY_BASIC : Nat := 97

/-- Modelled from the spec: the `LUMI` manufacturer constant from
`zhaquirks.xiaomi`, the manufacturer string of these Xiaomi/Aqara devices. -/
def LUMI : String := "LUMI"

/-! ## Signature and replacement tables -/

/-- The custom cluster classes defined in this file or imported from
`zhaquirks.xiaomi` that appear by class (rather than by numeric id) in
replacement tables and in the quirk builder. -/
inductive CustomCluster
  | BasicCluster
  | MeteringCluster
  | ElectricalMeasurementCluster
  | OppleCluster
  | AnalogInputCluster
  | PlugAEU001MeteringCluster
  | PlugAEU001Cluster
deriving DecidableEq

/-- An entry of an INPUT_CLUSTERS or OUTPUT_CLUSTERS list: either a numeric
cluster id or a custom cluster class. -/
inductive ClusterRef
  | id (n : Nat)
  | custom (c : CustomCluster)
deriving DecidableEq

/-- One endpoint entry of a signature or replacement ENDPOINTS dict. A
`none` cluster list mirrors the Python dict lacking that key. -/
structure EndpointEntry where
  profile_id : Nat
  device_type : Nat
  input_clusters : Option (List ClusterRef)
  output_clusters : Option (List ClusterRef)
deriving DecidableEq

/-- A quirk class signature: MODELS_INFO plus the ENDPOINTS dict, the latter
as an association list keyed by endpoint id. -/
structure QuirkSignature where
  models_info : List (String × String)
  endpoints : List (Nat × EndpointEntry)
deriving DecidableEq

/-- A quirk class replacement: its ENDPOINTS dict. -/
structure Replacement where
  endpoints : List (Nat × EndpointEntry)
deriving DecidableEq

/-- Signature of `PlugMMEU01`. -/
def PlugMMEU01.signature : QuirkSignature where
  models_info := [(LUMI, "lumi.plug.mmeu01")]
  endpoints :=
    [(1,
      { profile_id := zha.PROFILE_ID
        device_type := zha.DeviceType.SMART_PLUG
        input_clusters := some
          [ClusterRef.id Basic.cluster_id,
            ClusterRef.id DeviceTemperature.cluster_id,
            ClusterRef.id Identify.cluster_id,
            ClusterRef.id Groups.cluster_id,
            ClusterRef.id Scenes.cluster_id,
            ClusterRef.id OnOff.cluster_id,
            ClusterRef.id Alarms.cluster_id,
            ClusterRef.id Metering.cluster_id,
            ClusterRef.id ElectricalMeasurement.cluster_id]
        output_clusters := some
          [ClusterRef.id Time.cluster_id, ClusterRef.id Ota.cluster_id] }),
      (242,
      { profile_id := zgp.PROFILE_ID
        device_type := zgp.DeviceType.PROXY_BASIC
        input_clusters := none
        output_clusters := some [ClusterRef.id GreenPowerProxy.cluster_id] })]

/-- Replacement of `PlugMMEU01`; every other plug quirk class aliases it. -/
def PlugMMEU01.replacement : Replacement where
  endpoints :=
    [(1,
      { profile_id := zha.PROFILE_ID
        device_type := zha.DeviceType.SMART_PLUG
        input_clusters := some
          [ClusterRef.custom CustomCluster.BasicCluster,
            ClusterRef.id DeviceTemperature.cluster_id,
            ClusterRef.id Identify.cluster_id,
            ClusterRef.id Groups.cluster_id,
            ClusterRef.id Scenes.cluster_id,
            ClusterRef.id OnOff.cluster_id,
            ClusterRef.id Alarms.cluster_id,
            ClusterRef.custom CustomCluster.MeteringCluster,
            ClusterRef.custom CustomCluster.ElectricalMeasurementCluster,
            ClusterRef.custom CustomCluster.OppleCluster]
        output_clusters := some
          [ClusterRef.id Time.cluster_id, ClusterRef.id Ota.cluster_id] }),
      (21,
      { profile_id := zha.PROFILE_ID
        device_type := zha.DeviceType.SMART_PLUG
        input_clusters := some
          [ClusterRef.custom CustomCluster.AnalogInputCluster]
        output_clusters := none }),
      (242,
      { profile_id := zgp.PROFILE_ID
        device_type := zgp.DeviceType.PROXY_BASIC
        input_clusters := none
        output_clusters := some [ClusterRef.id GreenPowerProxy.cluster_id] })]

/-- The endpoint 1 entry shared by the three alternative MMEU01 signatures:
`input_clusters=[0, 2, 3, 4, 5, 6, 64704]`, `output_clusters=[10, 25]`. The
Python source repeats this dict literally in each Alt class. -/
def altEndpoint1 : EndpointEntry where
  profile_id := zha.PROFILE_ID
  device_type := zha.DeviceType.SMART_PLUG
  input_clusters := some
    [ClusterRef.id Basic.cluster_id,
      ClusterRef.id DeviceTemperature.cluster_id,
      ClusterRef.id Identify.cluster_id,
      ClusterRef.id Groups.cluster_id,
      ClusterRef.id Scenes.cluster_id,
      ClusterRef.id OnOff.cluster_id,
      ClusterRef.id OppleCluster.cluster_id]
  output_clusters := some
    [ClusterRef.id Time.cluster_id, ClusterRef.id Ota.cluster_id]

/-- The AnalogInput-only endpoint entry repeated at endpoints 21, 31 and 22
of the alternative signatures: `input_clusters=[12]`, `output_clusters=[]`. -/
def altAnalogEndpoint : EndpointEntry where
  profile_id := zha.PROFILE_ID
  device_type := zha.DeviceType.SMART_PLUG
  input_clusters := some [ClusterRef.id AnalogInput.cluster_id]
  output_clusters := none

/-- The GreenPowerProxy endpoint 242 entry shared by all signatures. -/
def gpEndpoint : EndpointEntry where
  profile_id := zgp.PROFILE_ID
  device_type := zgp.DeviceType.PROXY_BASIC
  input_clusters := none
  output_clusters := some [ClusterRef.id GreenPowerProxy.cluster_id]

/-- Signature of `PlugMMEU01Alt1`: MODELS_INFO aliased from `PlugMMEU01`,
endpoints 1, 21, 31 and 242. -/
def PlugMMEU01Alt1.signature : QuirkSignature where
  models_info := PlugMMEU01.signature.models_info
  endpoints :=
    [(1, altEndpoint1), (21, altAnalogEndpoint), (31, altAnalogEndpoint),
      (242, gpEndpoint)]

/-- Replacement of `PlugMMEU01Alt1`, aliased from `PlugMMEU01`. -/
def PlugMMEU01Alt1.replacement : Replacement := PlugMMEU01.replacement

/-- Signature of `PlugMMEU01Alt2`: endpoints 1 and 242 only. -/
def PlugMMEU01Alt2.signature : QuirkSignature where
  models_info := PlugMMEU01.signature.models_info
  endpoints := [(1, altEndpoint1), (242, gpEndpoint)]

/-- Replacement of `PlugMMEU01Alt2`, aliased from `PlugMMEU01`. -/
def PlugMMEU01Alt2.replacement : Replacement := PlugMMEU01.replacement

/-- Signature of `PlugMMEU01Alt3`: endpoints 1, 21, 22 and 242. -/
def PlugMMEU01Alt3.signature : QuirkSignature where
  models_info := PlugMMEU01.signature.models_info
  endpoints :=
    [(1, altEndpoint1), (21, altAnalogEndpoint), (22, altAnalogEndpoint),
      (242, gpEndpoint)]

/-- Replacement of `PlugMMEU01Alt3`, aliased from `PlugMMEU01`. -/
def PlugMMEU01Alt3.replacement : Replacement := PlugMMEU01.replacement

/-- Signature of `PlugMAEU01`: its own MODELS_INFO, endpoints aliased from
`PlugMMEU01`. -/
def PlugMAEU01.signature : QuirkSignature where
  models_info := [(LUMI, "lumi.plug.maeu01")]
  endpoints := PlugMMEU01.signature.endpoints

/-- Replacement of `PlugMAEU01`, aliased from `PlugMMEU01`. -/
def PlugMAEU01.replacement : Replacement := PlugMMEU01.replacement

/-- Signature of `PlugMAEU01Alt1`: MODELS_INFO aliased from `PlugMAEU01`,
endpoints aliased from `PlugMMEU01Alt1`. -/
def PlugMAEU01Alt1.signature : QuirkSignature where
  models_info := PlugMAEU01.signature.models_info
  endpoints := PlugMMEU01Alt1.signature.endpoints

/-- Replacement of `PlugMAEU01Alt1`, aliased from `PlugMAEU01`. -/
def PlugMAEU01Alt1.replacement : Replacement := PlugMAEU01.replacement

/-- Signature of `PlugMAEU01Alt2`: MODELS_INFO aliased from `PlugMAEU01`,
endpoints aliased from `PlugMMEU01Alt2`. -/
def PlugMAEU01Alt2.signature : QuirkSignature where
  models_info := PlugMAEU01.signature.models_info
  endpoints := PlugMMEU01Alt2.signature.endpoints

/-- Replacement of `PlugMAEU01Alt2`, aliased from `PlugMAEU01`. -/
def PlugMAEU01Alt2.replacement : Replacement := PlugMAEU01.replacement

/-- Signature of `PlugMAEU01Alt3`: MODELS_INFO aliased from `PlugMAEU01`,
endpoints aliased from `PlugMMEU01Alt3`. -/
def PlugMAEU01Alt3.signature : QuirkSignature where
  models_info := PlugMAEU01.signature.models_info
  endpoints := PlugMMEU01Alt3.signature.endpoints

/-- Replacement of `PlugMAEU01Alt3`, aliased from `PlugMAEU01`. -/
def PlugMAEU01Alt3.replacement : Replacement := PlugMAEU01.replacement

end PlugEU

namespace PlugEU

/-- C4: all seven subclass replacements equal `PlugMMEU01.replacement`, which
declares exactly endpoints 1, 21 and 242, and whose endpoint 1 input cluster
list contains `BasicCluster`, `MeteringCluster`,
`ElectricalMeasurementCluster` and `OppleCluster`. -/
theorem plug_replacements_identical :
    PlugMMEU01Alt1.replacement = PlugMMEU01.replacement ∧
    PlugMMEU01Alt2.replacement = PlugMMEU01.replacement ∧
    PlugMMEU01Alt3.replacement = PlugMMEU01.replacement ∧
    PlugMAEU01.replacement = PlugMMEU01.replacement ∧
    PlugMAEU01Alt1.replacement = PlugMMEU01.replacement ∧
    PlugMAEU01Alt2.replacement = PlugMMEU01.replacement ∧
    PlugMAEU01Alt3.replacement = PlugMMEU01.replacement ∧
    PlugMMEU01.replacement.endpoints.map Prod.fst = [1, 21, 242] ∧
    ((PlugMMEU01.replacement.endpoints.lookup 1).any fun e =>
      ((e.input_clusters.getD []).contains
          (ClusterRef.custom CustomCluster.BasicCluster) &&
        (e.input_clusters.getD []).contains
          (ClusterRef.custom CustomCluster.MeteringCluster) &&
        (e.input_clusters.getD []).contains
          (ClusterRef.custom CustomCluster.ElectricalMeasurementCluster) &&
        (e.input_clusters.getD []).contains
          (ClusterRef.custom CustomCluster.OppleCluster))) = true := by
  refine ⟨rfl, rfl, rfl, rfl, rfl, rfl, rfl, rfl, ?_⟩
  decide

/-- C7: each plug quirk class targets exactly one LUMI model, mmeu01 for the
MMEU01 family and maeu01 for the MAEU01 family, and each MAEU01 variant's
signature ENDPOINTS table equals that of the corresponding MMEU01 variant. -/
theorem plug_signatures_models_and_endpoints :
    PlugMMEU01.signature.models_info = [(LUMI, "lumi.plug.mmeu01")] ∧
    PlugMMEU01Alt1.signature.models_info = [(LUMI, "lumi.plug.mmeu01")] ∧
    PlugMMEU01Alt2.signature.models_info = [(LUMI, "lumi.plug.mmeu01")] ∧
    PlugMMEU01Alt3.signature.models_info = [(LUMI, "lumi.plug.mmeu01")] ∧
    PlugMAEU01.signature.models_info = [(LUMI, "lumi.plug.maeu01")] ∧
    PlugMAEU01Alt1.signature.models_info = [(LUMI, "lumi.plug.maeu01")] ∧
    PlugMAEU01Alt2.signature.models_info = [(LUMI, "lumi.plug.maeu01")] ∧
    PlugMAEU01Alt3.signature.models_info = [(LUMI, "lumi.plug.maeu01")] ∧
    PlugMAEU01.signature.endpoints = PlugMMEU01.signature.endpoints ∧
    PlugMAEU01Alt1.signature.endpoints = PlugMMEU01Alt1.signature.endpoints ∧
    PlugMAEU01Alt2.signature.endpoints = PlugMMEU01Alt2.signature.endpoints ∧
    PlugMAEU01Alt3.signature.endpoints = PlugMMEU01Alt3.signature.endpoints :=
  ⟨rfl, rfl, rfl, rfl, rfl, rfl, rfl, rfl, rfl, rfl, rfl, rfl⟩

/-! ## AqaraPowerOutageMemoryEnum and the lumi.plug.aeu001 quirk builder -/

/-- Embedding of the `AqaraPowerOutageMemoryEnum` Python enum class. -/
inductive AqaraPowerOutageMemoryEnum
  | On
  | Previous
  | Off
  | Inverted
deriving DecidableEq, Fintype

/-- The numeric value of each `AqaraPowerOutageMemoryEnum` member. -/
def AqaraPowerOutageMemoryEnum.value : AqaraPowerOutageMemoryEnum → Nat
  | AqaraPowerOutageMemoryEnum.On => 0x00
  | AqaraPowerOutageMemoryEnum.Previous => 0x01
  | AqaraPowerOutageMemoryEnum.Off => 0x02
  | AqaraPowerOutageMemoryEnum.Inverted => 0x03

/-- Attribute value types appearing in `PlugAEU001Cluster.attributes`. -/
inductive AttrType
  | uint8
  | bool
  | single
  | powerOutageMemoryEnum
deriving DecidableEq

/-- Embedding of the `PlugAEU001Cluster.attributes` dict: attribute id to
name, value type and the mandatory flag. -/
def PlugAEU001Cluster.attributes : List (Nat × String × AttrType × Bool) :=
  [(0x0200, "button_lock", AttrType.uint8, true),
    (0x0202, "charging_protection", AttrType.bool, true),
    (0x0203, "led_indicator", AttrType.bool, true),
    (0x0206, "charging_limit", AttrType.single, true),
    (0x020B, "overload_protection", AttrType.single, true),
    (0x0517, "power_on_behavior", AttrType.powerOutageMemoryEnum, true)]

/-- Enum classes available to the quirk builder's enum entity; the source
defines exactly one. -/
inductive EnumClassRef
  | AqaraPowerOutageMemory
deriving DecidableEq

/-- Measurement units used by the quirk builder's number entities. -/
inductive EntityUnit
  | WATT
deriving DecidableEq

/-- One call in the `QuirkBuilder` chain for lumi.plug.aeu001, in source
order. Cluster modifications keep their endpoint id (1 when the call omits
it); entity declarations carry the keyword arguments given in the source. -/
inductive BuilderStep
  | friendly_name (model manufacturer : String)
  | removesCluster (cluster_id endpoint_id : Nat)
  | addsCluster (cluster_id endpoint_id : Nat)
  | replacesCluster (c : CustomCluster) (endpoint_id : Nat)
  | switchEntity (attribute_name : String) (cluster_id : Nat)
      (force_inverted : Bool) (translation_key fallback_name : String)
  | enumEntity (attribute_name : String) (enum_class : EnumClassRef)
      (cluster_id : Nat) (translation_key fallback_name : String)
  | numberEntity (attribute_name : String) (cluster_id : Nat)
      (min_value max_value : Rat) (step : Option Rat) (unit : EntityUnit)
      (translation_key fallback_name : String)
deriving DecidableEq

/-- A v2 quirk: the manufacturer and model passed to `QuirkBuilder` plus the
chained calls in source order. -/
structure QuirkV2 where
  manufacturer : String
  model : String
  steps : List BuilderStep
deriving DecidableEq

/-- Embedding of the `QuirkBuilder("Aqara", "lumi.plug.aeu001")` chain added
to the registry at the bottom of the source file. -/
def lumi_plug_aeu001_quirk : QuirkV2 where
  manufacturer := "Aqara"
  model := "lumi.plug.aeu001"
  steps :=
    [BuilderStep.friendly_name "Wall Outlet H2 EU" "Aqara",
      BuilderStep.removesCluster TemperatureMeasurement.cluster_id 1,
      BuilderStep.addsCluster DeviceTemperature.cluster_id 1,
      BuilderStep.removesCluster OnOff.cluster_id 2,
      BuilderStep.replacesCluster CustomCluster.BasicCluster 1,
      BuilderStep.replacesCluster CustomCluster.PlugAEU001MeteringCluster 1,
      BuilderStep.replacesCluster CustomCluster.ElectricalMeasurementCluster 1,
      BuilderStep.replacesCluster CustomCluster.PlugAEU001Cluster 1,
      BuilderStep.replacesCluster CustomCluster.AnalogInputCluster 21,
      BuilderStep.switchEntity "button_lock" PlugAEU001Cluster.cluster_id
        true "button_lock" "Button Lock",
      BuilderStep.enumEntity "power_on_behavior"
        EnumClassRef.AqaraPowerOutageMemory PlugAEU001Cluster.cluster_id
        "power_on_behavior" "Power On Behavior",
      BuilderStep.numberEntity "overload_protection"
        PlugAEU001Cluster.cluster_id 100 3840 none EntityUnit.WATT
        "overload_protection" "Overload Protection",
      BuilderStep.switchEntity "led_indicator" PlugAEU001Cluster.cluster_id
        false "led_indicator" "LED Indicator",
      BuilderStep.switchEntity "charging_protection"
        PlugAEU001Cluster.cluster_id false "charging_protection"
        "Charging Protection",
      BuilderStep.numberEntity "charging_limit" PlugAEU001Cluster.cluster_id
        0.1 2 (some 0.1) EntityUnit.WATT "charging_limit" "Charging Limit"]

/-- A builder step that declares an exposed entity (switch, enum, number). -/
def BuilderStep.isEntity : BuilderStep → Bool
  | BuilderStep.switchEntity _ _ _ _ _ => true
  | BuilderStep.enumEntity _ _ _ _ _ => true
  | BuilderStep.numberEntity _ _ _ _ _ _ _ _ => true
  | _ => false

/-- A builder step that declares an enum entity. -/
def BuilderStep.isEnumEntity : BuilderStep → Bool
  | BuilderStep.enumEntity _ _ _ _ _ => true
  | _ => false

/-- The exposed entities declared by the lumi.plug.aeu001 quirk. -/
def aeu001_entities : List BuilderStep :=
  lumi_plug_aeu001_quirk.steps.filter BuilderStep.isEntity

end PlugEU

namespace PlugEU

/-- C5: `AqaraPowerOutageMemoryEnum` has exactly the four members On = 0x00,
Previous = 0x01, Off = 0x02, Inverted = 0x03 with distinct values, the
power_on_behavior attribute of `PlugAEU001Cluster` carries this enum type,
and the quirk builder registers exactly one enum entity: power_on_behavior on
`PlugAEU001Cluster.cluster_id` with this enum class. -/
theorem power_outage_memory_enum_registered :
    (∀ x : AqaraPowerOutageMemoryEnum,
      x = AqaraPowerOutageMemoryEnum.On ∨
      x = AqaraPowerOutageMemoryEnum.Previous ∨
      x = AqaraPowerOutageMemoryEnum.Off ∨
      x = AqaraPowerOutageMemoryEnum.Inverted) ∧
    AqaraPowerOutageMemoryEnum.value AqaraPowerOutageMemoryEnum.On = 0x00 ∧
    AqaraPowerOutageMemoryEnum.value AqaraPowerOutageMemoryEnum.Previous
      = 0x01 ∧
    AqaraPowerOutageMemoryEnum.value AqaraPowerOutageMemoryEnum.Off = 0x02 ∧
    AqaraPowerOutageMemoryEnum.value AqaraPowerOutageMemoryEnum.Inverted
      = 0x03 ∧
    (List.map AqaraPowerOutageMemoryEnum.value
      [AqaraPowerOutageMemoryEnum.On, AqaraPowerOutageMemoryEnum.Previous,
        AqaraPowerOutageMemoryEnum.Off, AqaraPowerOutageMemoryEnum.Inverted])
      = [0, 1, 2, 3] ∧
    (0x0517, "power_on_behavior", AttrType.powerOutageMemoryEnum, true)
      ∈ PlugAEU001Cluster.attributes ∧
    lumi_plug_aeu001_quirk.steps.filter BuilderStep.isEnumEntity =
      [BuilderStep.enumEntity "power_on_behavior"
        EnumClassRef.AqaraPowerOutageMemory PlugAEU001Cluster.cluster_id
        "power_on_behavior" "Power On Behavior"] := by
  refine ⟨by decide, rfl, rfl, rfl, rfl, by decide, by decide, ?_⟩
  simp [lumi_plug_aeu001_quirk, BuilderStep.isEnumEntity]

/-- C6: the lumi.plug.aeu001 quirk declares exactly six exposed entities:
switches button_lock (force_inverted), led_indicator and
charging_protection, numbers overload_protection (range 100 to 3840 watts)
and charging_limit (range 0.1 to 2, step 0.1), and the power_on_behavior
enum, all on `PlugAEU001Cluster.cluster_id`. -/
theorem aeu001_entity_declarations :
    aeu001_entities.length = 6 ∧
    BuilderStep.switchEntity "button_lock" PlugAEU001Cluster.cluster_id true
        "button_lock" "Button Lock" ∈ aeu001_entities ∧
    BuilderStep.switchEntity "led_indicator" PlugAEU001Cluster.cluster_id
        false "led_indicator" "LED Indicator" ∈ aeu001_entities ∧
    BuilderStep.switchEntity "charging_protection"
        PlugAEU001Cluster.cluster_id false "charging_protection"
        "Charging Protection" ∈ aeu001_entities ∧
    BuilderStep.numberEntity "overload_protection"
        PlugAEU001Cluster.cluster_id 100 3840 none EntityUnit.WATT
        "overload_protection" "Overload Protection" ∈ aeu001_entities ∧
    BuilderStep.numberEntity "charging_limit" PlugAEU001Cluster.cluster_id
        0.1 2 (some 0.1) EntityUnit.WATT "charging_limit" "Charging Limit"
      ∈ aeu001_entities ∧
    BuilderStep.enumEntity "power_on_behavior"
        EnumClassRef.AqaraPowerOutageMemory PlugAEU001Cluster.cluster_id
        "power_on_behavior" "Power On Behavior" ∈ aeu001_entities := by
  refine ⟨?_, ?_, ?_, ?_, ?_, ?_, ?_⟩ <;>
    simp [aeu001_entities, lumi_plug_aeu001_quirk, BuilderStep.isEntity]

end PlugEU
